import Mathlib

/-!
Verification of the error taxonomy of a UDP browser-discovery client
(src/src/error.rs), together with spec-modelled fragments of the response
decoder header check and the discovery receive loop.

Byte values and byte buffers are embedded as Nat and List Nat; strings are
embedded as Lean String values holding the rendered text.
-/

namespace MssqlBrowser

/-- Embedding of std::str::Utf8Error: the byte-position data it carries
(valid_up_to and error_len, as exposed by the standard library). -/
structure Utf8Error where
  valid_up_to : Nat
  error_len : Option Nat
  deriving DecidableEq

/-- Display rendering of std::str::Utf8Error as produced by the Rust
standard library. -/
def Utf8Error.display (e : Utf8Error) : String :=
  match e.error_len with
  | some n =>
      "invalid utf-8 sequence of " ++ toString n ++ " bytes from index "
        ++ toString e.valid_up_to
  | none =>
      "incomplete utf-8 byte sequence from index " ++ toString e.valid_up_to

/-- The single-quote character used inside several Display messages. -/
def squote : String := String.singleton (Char.ofNat 39)

/-- BrowserProtocolField (src/src/error.rs lines 155-170): the fields found
in a browser response. -/
inductive BrowserProtocolField where
  | ServerName
  | InstanceName
  | IsClustered
  | Version
  | NamedPipeName
  | TcpPort
  | ViaMachineName
  | RpcComputerName
  | SpxServiceName
  | AppleTalkObjectName
  | BvItemName
  | BvGroupName
  | BvOrgName
  deriving DecidableEq

/-- The traits named in the derive attribute on BrowserProtocolField
(src/src/error.rs line 154); the file contains no other impl for this type
apart from the derived ones. -/
def BrowserProtocolField.derives : List String :=
  ["Debug", "PartialEq", "Eq", "Copy", "Clone"]

/-- Discriminant assigned by rustc to each BrowserProtocolField variant, in
declaration order; the derived PartialEq on a fieldless enum compares
discriminants. -/
def BrowserProtocolField.discriminant : BrowserProtocolField → Nat
  | .ServerName => 0
  | .InstanceName => 1
  | .IsClustered => 2
  | .Version => 3
  | .NamedPipeName => 4
  | .TcpPort => 5
  | .ViaMachineName => 6
  | .RpcComputerName => 7
  | .SpxServiceName => 8
  | .AppleTalkObjectName => 9
  | .BvItemName => 10
  | .BvGroupName => 11
  | .BvOrgName => 12

/-- The derived PartialEq comparison on BrowserProtocolField: discriminant
equality. -/
def BrowserProtocolField.eqb (a b : BrowserProtocolField) : Bool :=
  a.discriminant == b.discriminant

/-- The derived Debug rendering of each BrowserProtocolField variant: its
bare variant name. -/
def BrowserProtocolField.debugStr : BrowserProtocolField → String
  | .ServerName => "ServerName"
  | .InstanceName => "InstanceName"
  | .IsClustered => "IsClustered"
  | .Version => "Version"
  | .NamedPipeName => "NamedPipeName"
  | .TcpPort => "TcpPort"
  | .ViaMachineName => "ViaMachineName"
  | .RpcComputerName => "RpcComputerName"
  | .SpxServiceName => "SpxServiceName"
  | .AppleTalkObjectName => "AppleTalkObjectName"
  | .BvItemName => "BvItemName"
  | .BvGroupName => "BvGroupName"
  | .BvOrgName => "BvOrgName"

/-- BrowserProtocolToken (src/src/error.rs lines 111-131): the value that
was expected or found while parsing. -/
inductive BrowserProtocolToken where
  | EndOfMessage
  | Literal (s : String)
  | MessageIdentifier (v : Nat)
  | MessageLength
  | DacVersion (v : Nat)
  | DacPort
  | Identifier (f : BrowserProtocolField)
  | ValueOf (f : BrowserProtocolField)
  | TcpPort
  | ViaParameters
  | EndpointIdentifierOrSemicolon
  deriving DecidableEq

/-- Uppercase hexadecimal digits of a number, as produced by the Rust
format specifier X (without the 0x prefix added by the alternate flag). -/
def toHexUpper (n : Nat) : String :=
  String.mk ((Nat.toDigits 16 n).map Char.toUpper)

/-- Display for BrowserProtocolToken (src/src/error.rs lines 133-151). -/
def BrowserProtocolToken.display : BrowserProtocolToken → String
  | .EndOfMessage => "end of message"
  | .Literal s => squote ++ s ++ squote
  | .MessageIdentifier v => "message identifier 0x" ++ toHexUpper v
  | .MessageLength => "message length"
  | .DacVersion v => "dac version " ++ toString v
  | .DacPort => "dac port"
  | .Identifier f => "identifier for field " ++ f.debugStr
  | .ValueOf f => "value for field " ++ f.debugStr
  | .TcpPort => "tcp port"
  | .ViaParameters => "via parameters"
  | .EndpointIdentifierOrSemicolon => "endpoint identifier or semicolon"

/-- BrowserProtocolError (src/src/error.rs lines 63-88): an unexpected
response from the server. -/
inductive BrowserProtocolError where
  | UnexpectedToken (expected found : BrowserProtocolToken)
  | LengthMismatch (datagram header : Nat)
  | InvalidUtf8 (err : Utf8Error)
  | ExtraneousData (data : List Nat)
  deriving DecidableEq

/-- Display for BrowserProtocolError (src/src/error.rs lines 90-105). The
InvalidUtf8 arm delegates to the wrapped error with err.fmt(f). -/
def BrowserProtocolError.display : BrowserProtocolError → String
  | .UnexpectedToken expected found =>
      "expected " ++ expected.display ++ ", but found " ++ found.display
  | .LengthMismatch datagram header =>
      "mismatch between datagram size " ++ toString datagram
        ++ " bytes and size specified in header " ++ toString header ++ " bytes"
  | .InvalidUtf8 err => err.display
  | .ExtraneousData data => toString data.length ++ " unexpected trailing bytes"

/-- The cause accessor of BrowserProtocolError. The impl at
src/src/error.rs line 107 is the empty impl Error for BrowserProtocolError,
so the trait-default cause applies, returning None for every variant; the
only wrapped error a variant carries is the Utf8Error of InvalidUtf8, hence
the Option Utf8Error result type. -/
def BrowserProtocolError.cause (_ : BrowserProtocolError) : Option Utf8Error :=
  none

/-- SocketAddr is embedded as its Display rendering, the only operation the
source performs on it. -/
abbrev SocketAddr := String

/-- BrowserError (src/src/error.rs lines 6-27), generic over the transport
error type. -/
inductive BrowserError (E : Type) where
  | BindFailed (err : E)
  | SetBroadcastFailed (err : E)
  | SendFailed (addr : SocketAddr) (err : E)
  | ConnectFailed (addr : SocketAddr) (err : E)
  | ReceiveFailed (err : E)
  | InstanceNameTooLong
  | ProtocolError (err : BrowserProtocolError)

/-- Display for BrowserError (src/src/error.rs lines 29-43). showE is the
Display of the transport error type; maxLen is the crate-root constant
MAX_INSTANCE_NAME_LEN, which lives outside the visible fragment and is
therefore threaded as a parameter. -/
def BrowserError.display {E : Type} (showE : E → String) (maxLen : Nat) :
    BrowserError E → String
  | .BindFailed err => "bind failed: " ++ showE err
  | .SetBroadcastFailed err => "enabling broadcast option failed: " ++ showE err
  | .SendFailed addr err =>
      "sending of datagram to " ++ squote ++ addr ++ squote ++ " failed: "
        ++ showE err
  | .ConnectFailed addr err =>
      "connect to " ++ squote ++ addr ++ squote ++ " failed: " ++ showE err
  | .ReceiveFailed err => "receiving of datagram failed: " ++ showE err
  | .InstanceNameTooLong =>
      "specified instance name is longer than " ++ toString maxLen ++ " bytes"
  | .ProtocolError err => "protocol error: " ++ err.display

/-- The cause accessor of BrowserError (src/src/error.rs lines 45-59): the
wrapped error is either the transport error (left) or the protocol error
(right). -/
def BrowserError.cause {E : Type} : BrowserError E → Option (Sum E BrowserProtocolError)
  | .BindFailed err => some (Sum.inl err)
  | .SetBroadcastFailed err => some (Sum.inl err)
  | .SendFailed _ err => some (Sum.inl err)
  | .ConnectFailed _ err => some (Sum.inl err)
  | .ReceiveFailed err => some (Sum.inl err)
  | .InstanceNameTooLong => none
  | .ProtocolError err => some (Sum.inr err)

/-- A decoded field value: string-valued or integer-valued (spec section 3,
instance record). -/
inductive FieldValue where
  | str (s : String)
  | int (n : Nat)
  deriving DecidableEq

/-- An instance record: the mapping from fields to decoded values produced
for one advertised instance (spec section 3). -/
abbrev InstanceRecord := List (BrowserProtocolField × FieldValue)

/-- Modelled from the spec: the message identifier expected in a discovery
reply header. The decoder is not part of the visible fragment; the spec
(sections 4.1 and 4.3 step 1) fixes a single expected reply identifier,
rendered as 0x5 in its example label. -/
def expectedMessageIdentifier : Nat := 5

/-- Modelled from the spec: header validation of the response decoder,
which is not part of the visible fragment (spec section 4.3 steps 1-2).
Step 1 reads the single-byte message identifier and the 16-bit
little-endian length and fails with UnexpectedToken on a wrong identifier;
step 2 compares the declared length against the actual remaining buffer
length and fails with LengthMismatch (datagram = actual remaining, header =
declared) before any body parsing. The body grammar (steps 3-6) is
abstracted as the parseBody argument so that theorems can quantify over it. -/
def decodeResponse
    (parseBody : List Nat → Except BrowserProtocolError (List InstanceRecord)) :
    List Nat → Except BrowserProtocolError (List InstanceRecord)
  | id :: lo :: hi :: body =>
    if id = expectedMessageIdentifier then
      if body.length = lo + 256 * hi then parseBody body
      else Except.error (.LengthMismatch body.length (lo + 256 * hi))
    else
      Except.error (.UnexpectedToken (.MessageIdentifier expectedMessageIdentifier)
        (.MessageIdentifier id))
  | _ =>
    Except.error (.UnexpectedToken (.MessageIdentifier expectedMessageIdentifier)
      .EndOfMessage)

/-- Modelled from the spec: the pre-flight validation of the discovery
round (spec section 4.4 step 1) — a supplied filter name whose byte length
exceeds MAX_INSTANCE_NAME_LEN (passed as maxLen) fails before any network
use. -/
def nameTooLong (nameFilter : Option (List Nat)) (maxLen : Nat) : Bool :=
  match nameFilter with
  | some name => decide (maxLen < name.length)
  | none => false

/-- Modelled from the spec: the discovery round (spec section 4.4), which
is not part of the visible fragment. The pre-flight name-length check,
the bind, set-broadcast and send steps are modelled by their outcomes
(none = success); received is the sequence of reply datagrams obtained
before the deadline elapses, processed in receipt order under the
skip-malformed-replies policy (spec section 4.4 step 5, policy b), with dec
the decoder applied to each reply. -/
def discover (E : Type) (nameFilter : Option (List Nat)) (maxLen : Nat)
    (bindErr broadcastErr : Option E) (target : SocketAddr) (sendErr : Option E)
    (dec : List Nat → Except BrowserProtocolError (List InstanceRecord))
    (received : List (List Nat)) : Except (BrowserError E) (List InstanceRecord) :=
  if nameTooLong nameFilter maxLen then
    Except.error .InstanceNameTooLong
  else
    match bindErr with
    | some e => Except.error (.BindFailed e)
    | none =>
      match broadcastErr with
      | some e => Except.error (.SetBroadcastFailed e)
      | none =>
        match sendErr with
        | some e => Except.error (.SendFailed target e)
        | none =>
          Except.ok (received.filterMap (fun r => (dec r).toOption)).flatten

/-! ### Theorems for the claims -/

/-- C1: counterexample — the claim says the cause accessor of
BrowserProtocolError returns the wrapped underlying error for InvalidUtf8;
on the concrete Utf8Error with valid_up_to 3 and error_len 1 it returns
none, not the wrapped error. -/
theorem C1_cause_counterexample :
    BrowserProtocolError.cause (.InvalidUtf8 ⟨3, some 1⟩) = none ∧
    ¬ BrowserProtocolError.cause (.InvalidUtf8 ⟨3, some 1⟩)
        = some ⟨3, some 1⟩ := by
  exact ⟨rfl, by decide⟩

/-- C1 (amended): the Error impl for BrowserProtocolError is the empty
impl, so the cause accessor returns none for every value — in particular
the Utf8Error wrapped at construction time by InvalidUtf8 is not
retrievable through it. -/
theorem C1_cause_always_none (e : BrowserProtocolError) :
    e.cause = none := rfl

/-- C2: counterexample — the derive list on BrowserProtocolField is
exactly Debug, PartialEq, Eq, Copy, Clone; Hash is absent, so the code
provides no hashing operation for the type. -/
theorem C2_no_hash_counterexample :
    BrowserProtocolField.derives.contains "Hash" = false ∧
    BrowserProtocolField.derives = ["Debug", "PartialEq", "Eq", "Copy", "Clone"] :=
  ⟨rfl, rfl⟩

/-- C2 (amended): the derived equality on BrowserProtocolField holds
exactly when the two values are the same variant and is reflexive,
symmetric and transitive; no hashing operation is provided (Hash is not
derived), so only the equality half of the claim holds. -/
theorem C2_eq_equivalence (a b c : BrowserProtocolField)
    (hab : BrowserProtocolField.eqb a b = true)
    (hbc : BrowserProtocolField.eqb b c = true) :
    (∀ x y : BrowserProtocolField, BrowserProtocolField.eqb x y = true ↔ x = y) ∧
    BrowserProtocolField.eqb a a = true ∧
    BrowserProtocolField.eqb b a = true ∧
    BrowserProtocolField.eqb a c = true := by
  have key : ∀ x y : BrowserProtocolField,
      BrowserProtocolField.eqb x y = true ↔ x = y := by
    intro x y
    cases x <;> cases y <;> decide
  have hab1 : a = b := (key a b).mp hab
  have hbc1 : b = c := (key b c).mp hbc
  subst hab1
  subst hbc1
  exact ⟨key, (key a a).mpr rfl, (key a a).mpr rfl, (key a a).mpr rfl⟩

/-- C2 witness: the amended equality theorem applied at the concrete
variant TcpPort. -/
theorem C2_eq_equivalence_witness :
    (∀ x y : BrowserProtocolField, BrowserProtocolField.eqb x y = true ↔ x = y) ∧
    BrowserProtocolField.eqb .TcpPort .TcpPort = true ∧
    BrowserProtocolField.eqb .TcpPort .TcpPort = true ∧
    BrowserProtocolField.eqb .TcpPort .TcpPort = true :=
  C2_eq_equivalence .TcpPort .TcpPort .TcpPort (by decide) (by decide)

/-- C3: the Display rendering of ExtraneousData d is the length of d
followed by " unexpected trailing bytes" for every byte vector d, so two
payloads of equal length render to the identical string regardless of
their byte contents. -/
theorem C3_extraneous_display (d d2 : List Nat) (h : d.length = d2.length) :
    (BrowserProtocolError.ExtraneousData d).display
        = toString d.length ++ " unexpected trailing bytes" ∧
    (BrowserProtocolError.ExtraneousData d).display
        = (BrowserProtocolError.ExtraneousData d2).display := by
  exact ⟨rfl, by simp [BrowserProtocolError.display, h]⟩

/-- C3 witness: the rendering theorem at the payloads [0] and [255], which
have equal length but different contents. -/
theorem C3_extraneous_display_witness :
    (BrowserProtocolError.ExtraneousData [0]).display
        = toString (List.length ([0] : List Nat)) ++ " unexpected trailing bytes" ∧
    (BrowserProtocolError.ExtraneousData [0]).display
        = (BrowserProtocolError.ExtraneousData [255]).display :=
  C3_extraneous_display [0] [255] rfl

/-- C4: the cause accessor of BrowserError returns some of the wrapped
underlying error for BindFailed, SetBroadcastFailed, SendFailed,
ConnectFailed, ReceiveFailed and ProtocolError, and returns none exactly
for InstanceNameTooLong. -/
theorem C4_browser_error_cause (E : Type) (err : E) (addr : SocketAddr)
    (p : BrowserProtocolError) (b : BrowserError E) :
    (BrowserError.BindFailed err).cause = some (Sum.inl err) ∧
    (BrowserError.SetBroadcastFailed err).cause = some (Sum.inl err) ∧
    (BrowserError.SendFailed addr err).cause = some (Sum.inl err) ∧
    (BrowserError.ConnectFailed addr err).cause = some (Sum.inl err) ∧
    (BrowserError.ReceiveFailed err).cause = some (Sum.inl err) ∧
    (BrowserError.ProtocolError p : BrowserError E).cause = some (Sum.inr p) ∧
    (BrowserError.InstanceNameTooLong : BrowserError E).cause = none ∧
    (b.cause = none ↔ b = BrowserError.InstanceNameTooLong) := by
  refine ⟨rfl, rfl, rfl, rfl, rfl, rfl, rfl, ?_⟩
  cases b <;> simp [BrowserError.cause]

/-- C5: every BrowserError variant renders its variant-specific one-line
message, with the address and wrapped-error payloads interpolated and the
MAX_INSTANCE_NAME_LEN constant in the InstanceNameTooLong message. -/
theorem C5_browser_error_display (E : Type) (showE : E → String)
    (maxLen : Nat) (err : E) (addr : SocketAddr) (p : BrowserProtocolError) :
    BrowserError.display showE maxLen (BrowserError.BindFailed err)
        = "bind failed: " ++ showE err ∧
    BrowserError.display showE maxLen (BrowserError.SetBroadcastFailed err)
        = "enabling broadcast option failed: " ++ showE err ∧
    BrowserError.display showE maxLen (BrowserError.SendFailed addr err)
        = "sending of datagram to " ++ squote ++ addr ++ squote ++ " failed: "
            ++ showE err ∧
    BrowserError.display showE maxLen (BrowserError.ConnectFailed addr err)
        = "connect to " ++ squote ++ addr ++ squote ++ " failed: " ++ showE err ∧
    BrowserError.display showE maxLen (BrowserError.ReceiveFailed err)
        = "receiving of datagram failed: " ++ showE err ∧
    BrowserError.display showE maxLen (BrowserError.InstanceNameTooLong : BrowserError E)
        = "specified instance name is longer than " ++ toString maxLen ++ " bytes" ∧
    BrowserError.display showE maxLen (BrowserError.ProtocolError p : BrowserError E)
        = "protocol error: " ++ p.display :=
  ⟨rfl, rfl, rfl, rfl, rfl, rfl, rfl⟩

/-- C6: counterexample — the buffer [4, 1, 0] declares length 1 while 0
bytes remain, yet decoding fails with UnexpectedToken (wrong message
identifier, checked first), not with LengthMismatch. -/
theorem C6_counterexample :
    decodeResponse (fun _ => Except.ok []) [4, 1, 0]
        = Except.error (.UnexpectedToken
            (.MessageIdentifier expectedMessageIdentifier)
            (.MessageIdentifier 4)) ∧
    ¬ decodeResponse (fun _ => Except.ok []) [4, 1, 0]
        = Except.error (.LengthMismatch 0 1) := by
  exact ⟨rfl, by simp [decodeResponse, expectedMessageIdentifier]⟩

/-- C6 (amended): for every buffer whose message identifier passes the
header check and whose declared 16-bit length differs from the actual
remaining length, decoding fails with LengthMismatch carrying datagram =
actual remaining size and header = declared size, for every body parser —
hence before any body parsing is attempted. -/
theorem C6_length_mismatch
    (parseBody : List Nat → Except BrowserProtocolError (List InstanceRecord))
    (lo hi : Nat) (body : List Nat) (h : body.length ≠ lo + 256 * hi) :
    decodeResponse parseBody (expectedMessageIdentifier :: lo :: hi :: body)
        = Except.error (.LengthMismatch body.length (lo + 256 * hi)) := by
  simp [decodeResponse, h]

/-- C6 witness: the length-mismatch theorem at the concrete buffer
[5, 2, 0] (declared length 2, zero remaining bytes). -/
theorem C6_length_mismatch_witness :
    decodeResponse (fun _ => Except.ok [])
        (expectedMessageIdentifier :: 2 :: 0 :: [])
        = Except.error (.LengthMismatch 0 (2 + 256 * 0)) :=
  C6_length_mismatch (fun _ => Except.ok []) 2 0 [] (by decide)

/-- C7: when the discovery round reaches its receive loop (the pre-flight
name check and the bind, broadcast and send steps succeed) and the
deadline elapses with zero successfully decoded replies, discover returns
the empty sequence of instance records, not an error. -/
theorem C7_timeout_empty (E : Type) (nameFilter : Option (List Nat))
    (maxLen : Nat) (target : SocketAddr)
    (dec : List Nat → Except BrowserProtocolError (List InstanceRecord))
    (received : List (List Nat))
    (hname : nameTooLong nameFilter maxLen = false)
    (hdec : ∀ r ∈ received, (dec r).toOption = none) :
    discover E nameFilter maxLen none none target none dec received
        = Except.ok [] := by
  have hfm : received.filterMap (fun r => (dec r).toOption) = [] :=
    List.filterMap_eq_nil_iff.mpr hdec
  simp [discover, hname, hfm]

/-- C7 witness: a discovery round with no filter name, successful
transport steps, and an empty set of received datagrams returns the empty
sequence. -/
theorem C7_timeout_empty_witness :
    discover Nat none 32 none none "255.255.255.255:1434" none
        (fun _ => Except.error (.ExtraneousData [])) []
        = Except.ok [] :=
  C7_timeout_empty Nat none 32 "255.255.255.255:1434"
    (fun _ => Except.error (.ExtraneousData [])) [] rfl (by simp)

/-- C8: the rendering of BrowserProtocolToken is total and produces the
stable label of each variant: MessageIdentifier v renders as the
0x-prefixed uppercase hexadecimal of v, Identifier f and ValueOf f name
the field via its Debug name, and the concrete spec examples hold. -/
theorem C8_token_display (v : Nat) (f : BrowserProtocolField) :
    (BrowserProtocolToken.MessageIdentifier v).display
        = "message identifier 0x" ++ toHexUpper v ∧
    (BrowserProtocolToken.Identifier f).display
        = "identifier for field " ++ f.debugStr ∧
    (BrowserProtocolToken.ValueOf f).display
        = "value for field " ++ f.debugStr ∧
    (BrowserProtocolToken.MessageIdentifier 5).display
        = "message identifier 0x5" ∧
    (BrowserProtocolToken.Identifier .TcpPort).display
        = "identifier for field TcpPort" := by
  refine ⟨rfl, rfl, rfl, by decide, rfl⟩

/-- C9: formatting of both error types is deterministic — the Display
renderings are total functions defined for every payload, and equal values
render to the identical string. -/
theorem C9_display_deterministic (p q : BrowserProtocolError) (E : Type)
    (showE : E → String) (maxLen : Nat) (b c : BrowserError E)
    (hpq : p = q) (hbc : b = c) :
    p.display = q.display ∧
    BrowserError.display showE maxLen b = BrowserError.display showE maxLen c :=
  ⟨congrArg BrowserProtocolError.display hpq,
   congrArg (BrowserError.display showE maxLen) hbc⟩

/-- C9 witness: the determinism theorem at a concrete protocol error with
a raw byte payload and a concrete browser error. -/
theorem C9_display_deterministic_witness :
    (BrowserProtocolError.ExtraneousData [255]).display
        = (BrowserProtocolError.ExtraneousData [255]).display ∧
    BrowserError.display (fun n : Nat => toString n) 32
        BrowserError.InstanceNameTooLong
        = BrowserError.display (fun n : Nat => toString n) 32
            BrowserError.InstanceNameTooLong :=
  C9_display_deterministic (BrowserProtocolError.ExtraneousData [255])
    (BrowserProtocolError.ExtraneousData [255]) Nat (fun n : Nat => toString n) 32
    BrowserError.InstanceNameTooLong BrowserError.InstanceNameTooLong rfl rfl

/-- C10: the Display rendering of InvalidUtf8 e delegates to the wrapped
Utf8Error — it is exactly the rendering of e, with no added prefix or
context. -/
theorem C10_invalid_utf8_display (e : Utf8Error) :
    (BrowserProtocolError.InvalidUtf8 e).display = e.display := rfl

end MssqlBrowser
